import Mathlib

/-!
Formal model of the Nebula-Chat membership and message-synchronization core.

The embedding translates, from the repository source:
  * the persisted relations and row-level-security (RLS) policies of the SQL
    schema (profiles, chats, chat_members, messages);
  * loadMessages, sendMessage, the realtime INSERT handler and getChatName
    from ChatScreen.tsx;
  * createDM and createGroup from NewChat.tsx;
  * getChatName from ChatList.tsx (identical logic to the ChatScreen one).

Database state is a record of the four tables plus fresh-id counters and a
logical clock standing for the server-assigned NOW() timestamps.  UUID keys
are modelled as naturals drawn from the counters; timestamps as naturals.
The ambient authenticated session (supabase.auth.getUser) is passed to every
operation as an explicit `Option` principal, following the convention that
ambient session state is abstracted as an explicit argument.
-/

namespace NebulaChat

/-- The chats.type column, constrained by CHECK (type IN ('dm','group')). -/
inductive ChatType
  | dm
  | group
deriving DecidableEq, Repr

/-- A row of the profiles table (the columns the client selects). -/
structure Profile where
  id : Nat
  username : String
  display_name : String
  avatar_url : Option String
deriving DecidableEq, Repr

/-- A row of the chats table. -/
structure Chat where
  id : Nat
  type : ChatType
  name : Option String
  avatar_url : Option String
  created_by : Option Nat
  created_at : Nat
deriving DecidableEq, Repr

/-- A row of the chat_members relation; the id surrogate key plays no role
in any query, so only the UNIQUE(chat_id, user_id) pair is kept. -/
structure ChatMember where
  chat_id : Nat
  user_id : Nat
deriving DecidableEq, Repr

/-- A row of the messages table. -/
structure Message where
  id : Nat
  chat_id : Nat
  sender_id : Nat
  content : String
  created_at : Nat
deriving DecidableEq, Repr

/-- The store: the four tables, fresh-key counters for chats and messages,
and a logical clock for server-assigned created_at timestamps. -/
structure DB where
  profiles : List Profile
  chats : List Chat
  chat_members : List ChatMember
  messages : List Message
  nextChatId : Nat
  nextMsgId : Nat
  now : Nat
deriving Repr

/-- The RLS membership test used by the policies on chats and messages:
EXISTS (SELECT 1 FROM chat_members WHERE chat_id = ... AND user_id = auth.uid()). -/
def isMember (db : DB) (chatId userId : Nat) : Bool :=
  db.chat_members.any (fun m => decide (m.chat_id = chatId ∧ m.user_id = userId))

/-- Key freshness of the counter model: every stored chat id, and every
chat_id referenced from chat_members, is below the next generated id
(gen_random_uuid never collides with an existing key). -/
def DB.wfb (db : DB) : Bool :=
  db.chats.all (fun c => decide (c.id < db.nextChatId)) &&
    db.chat_members.all (fun m => decide (m.chat_id < db.nextChatId))

/-- The chat_members rows a principal can read: the sole SELECT policy on
chat_members is "Users can view their own chat memberships",
USING (auth.uid() = user_id), so only the reader's own rows are visible. -/
def visibleChatMembers (db : DB) (uid : Nat) : List ChatMember :=
  db.chat_members.filter (fun m => decide (m.user_id = uid))

/-- The chats rows a principal can read: the sole SELECT policy on chats is
"Users can view chats they are members of" (its chat_members subquery seeks
rows with user_id = auth.uid(), which pass their own SELECT policy, so it
coincides with the raw membership test). -/
def visibleChats (db : DB) (uid : Nat) : List Chat :=
  db.chats.filter (fun c => isMember db c.id uid)

/-- Ordering relation of the ORDER BY created_at ASC clause. -/
def msgLE (a b : Message) : Prop := a.created_at ≤ b.created_at

instance : DecidableRel msgLE := fun a b => Nat.decLe a.created_at b.created_at

instance : IsTotal Message msgLE := ⟨fun a b => Nat.le_total a.created_at b.created_at⟩

instance : IsTrans Message msgLE := ⟨fun _ _ _ h1 h2 => Nat.le_trans h1 h2⟩

/-- The ascending created_at ordering the store applies to a message query. -/
def sortByTime (l : List Message) : List Message :=
  List.insertionSort msgLE l

/-- The profile columns the client selects when joining a sender
(select username, display_name, avatar_url from profiles). -/
structure SenderInfo where
  username : String
  display_name : String
  avatar_url : Option String
deriving DecidableEq, Repr

/-- A message as held in the in-memory view: the raw row spread together
with the best-effort sender join (null when the profile did not resolve,
because the destructuring { data: sender } discards the lookup error). -/
structure MessageView where
  id : Nat
  chat_id : Nat
  sender_id : Nat
  content : String
  created_at : Nat
  sender : Option SenderInfo
deriving DecidableEq, Repr

/-- The per-message sender lookup
supabase.from(profiles).select(...).eq(id, msg.sender_id).single();
its error is discarded, so an unresolved profile yields none. -/
def lookupSender (db : DB) (senderId : Nat) : Option SenderInfo :=
  (db.profiles.find? (fun p => decide (p.id = senderId))).map
    (fun p => { username := p.username, display_name := p.display_name, avatar_url := p.avatar_url })

/-- Attach the best-effort sender join to a raw message row
(the { ...msg, sender } spread). -/
def enrich (db : DB) (m : Message) : MessageView :=
  { id := m.id, chat_id := m.chat_id, sender_id := m.sender_id,
    content := m.content, created_at := m.created_at,
    sender := lookupSender db m.sender_id }

/-- The rows of messages visible to a principal under the RLS policy
"Users can view messages in their chats". -/
def visibleMessages (db : DB) (uid : Nat) : List Message :=
  db.messages.filter (fun m => isMember db m.chat_id uid)

/-- loadMessages: select * from messages where chat_id = ... order by
created_at ascending (filtered by RLS to the chats uid belongs to), then the
Promise.all sender-join over each row. -/
def history (db : DB) (uid chatId : Nat) : List MessageView :=
  (sortByTime ((visibleMessages db uid).filter (fun m => decide (m.chat_id = chatId)))).map
    (enrich db)

/-- The realtime INSERT handler: fetch the sender best-effort and append the
event payload to the in-memory sequence (setMessages prev => [...prev, msg]). -/
def onInsertEvent (db : DB) (view : List MessageView) (m : Message) : List MessageView :=
  view ++ [enrich db m]

/-- The merged live view: an initial loaded sequence followed by a stream of
INSERT events, each handled by onInsertEvent. -/
def liveMerge (db : DB) (initial : List MessageView) (events : List Message) : List MessageView :=
  events.foldl (onInsertEvent db) initial

/-- The conversation attributes getChatName consumes: kind, stored name and
the counterpart profile resolved for a dm (null when unresolved). -/
structure ChatView where
  type : ChatType
  name : Option String
  otherUser : Option SenderInfo
deriving DecidableEq, Repr

/-- getChatName (ChatList.tsx and ChatScreen.tsx, identical logic):
group chats show chat.name || "Unnamed Group", dm chats show
chat.otherUser?.display_name || "Unknown User".  The JavaScript || treats
the empty string like a missing value, which the model preserves. -/
def getChatName (chat : ChatView) : String :=
  if chat.type = ChatType.group then
    match chat.name with
    | some n => if n = "" then "Unnamed Group" else n
    | none => "Unnamed Group"
  else
    match chat.otherUser with
    | some u => if u.display_name = "" then "Unknown User" else u.display_name
    | none => "Unknown User"

/-- The UNIQUE(chat_id, user_id) pair of a chat_members row. -/
def memberKey (m : ChatMember) : Nat × Nat := (m.chat_id, m.user_id)

/-- The INSERT policies on chat_members, applied per row: "Users can insert
chat memberships" WITH CHECK (auth.uid() = user_id), or "Chat creators can
add members" WITH CHECK (EXISTS (SELECT 1 FROM chats WHERE chats.id =
chat_id AND created_by = auth.uid())) — whose chats subquery is itself
RLS-filtered to the chats the inserting principal can see, against the
pre-statement state (rows of the same statement are not yet visible). -/
def memberInsertPolicyOk (db : DB) (uid : Nat) (r : ChatMember) : Bool :=
  decide (r.user_id = uid) ||
    (visibleChats db uid).any (fun c => decide (c.id = r.chat_id ∧ c.created_by = some uid))

/-- Whether a multi-row insert into chat_members succeeds: every row must
pass an INSERT policy, and the UNIQUE(chat_id, user_id) constraint must
hold (no clash among the new rows nor with the stored rows).  A failing
multi-row insert stores nothing. -/
def insertMembersOk (db : DB) (uid : Nat) (rows : List ChatMember) : Bool :=
  rows.all (memberInsertPolicyOk db uid) &&
    decide ((rows.map memberKey).Nodup ∧
      ∀ r ∈ rows, memberKey r ∉ db.chat_members.map memberKey)

/-- The JavaScript String.prototype.trim call: strip whitespace from both
ends of the string. -/
def jsTrim (s : String) : String :=
  ⟨((s.data.dropWhile Char.isWhitespace).reverse.dropWhile Char.isWhitespace).reverse⟩

/-- Outcome of sendMessage.  rejected is the pre-write guard
(!newMessage.trim() || sending) returning silently; noSession the silent
return when auth.getUser yields no user; forbidden an insert refused by the
RLS policy "Users can insert messages in their chats" (reported by toast). -/
inductive SendResult
  | rejected
  | noSession
  | sent (msgId : Nat)
  | forbidden
deriving DecidableEq, Repr

/-- Whether the sendMessage exit path raises the destructive toast. -/
def SendResult.isErrorToast : SendResult → Bool
  | .forbidden => true
  | _ => false

/-- sendMessage (ChatScreen.tsx): guard on trimmed content and the sending
flag, silent return without a session, then insert
{ chat_id, sender_id: user.id, content: newMessage.trim() }; the insert
succeeds iff the RLS membership check holds for the sender. -/
def sendMessage (db : DB) (auth : Option Nat) (chatId : Nat) (content : String)
    (sending : Bool) : SendResult × DB :=
  if jsTrim content = "" ∨ sending = true then (.rejected, db)
  else
    match auth with
    | none => (.noSession, db)
    | some uid =>
      if isMember db chatId uid then
        let m : Message := { id := db.nextMsgId, chat_id := chatId, sender_id := uid,
                             content := jsTrim content, created_at := db.now }
        (.sent m.id, { db with messages := db.messages ++ [m],
                               nextMsgId := db.nextMsgId + 1, now := db.now + 1 })
      else (.forbidden, db)

/-- Outcome of createDM.  found navigates to an existing chat, created to a
fresh one; chatInsertFailed is the thrown chats-insert error (the
.insert().select().single() statement aborted with nothing stored);
memberInsertFailed is the thrown members-insert error path, which leaves the
already-committed chat row orphaned.  Both error paths are caught and
toasted. -/
inductive DMResult
  | noSession
  | found (chatId : Nat)
  | created (chatId : Nat)
  | chatInsertFailed
  | memberInsertFailed (chatId : Nat)
deriving DecidableEq, Repr

/-- The conversation id the caller ends up navigated to, when any. -/
def DMResult.chatId : DMResult → Option Nat
  | .noSession => none
  | .found c => some c
  | .created c => some c
  | .chatInsertFailed => none
  | .memberInsertFailed _ => none

/-- Whether the createDM exit path raises the destructive toast. -/
def DMResult.isErrorToast : DMResult → Bool
  | .chatInsertFailed => true
  | .memberInsertFailed _ => true
  | _ => false

/-- The member ids of a chat other than uid, in stored order: the
select user_id from chat_members where chat_id = ... and user_id <> uid
probe of the dedup scan.  The chat_members SELECT policy restricts the
probe to the caller's own rows before the query's filters apply. -/
def otherMemberIds (db : DB) (chatId uid : Nat) : List Nat :=
  ((visibleChatMembers db uid).filter
    (fun r => decide (r.chat_id = chatId ∧ r.user_id ≠ uid))).map (fun r => r.user_id)

/-- The per-candidate test of the createDM dedup scan: the joined chat row
must be visible with type dm, and the probed other-member list must have
length one with the sought user first (otherMembers?.length === 1 &&
otherMembers[0].user_id === otherUser.id). -/
def dmMatch (db : DB) (uid otherId chatId : Nat) : Bool :=
  match (visibleChats db uid).find? (fun c => decide (c.id = chatId)) with
  | some c =>
    decide (c.type = ChatType.dm ∧ (otherMemberIds db chatId uid).length = 1 ∧
      (otherMemberIds db chatId uid).head? = some otherId)
  | none => false

/-- The createDM existence scan: iterate the caller's visible chat_members
rows matching user_id = uid in stored order and return the first chat
passing dmMatch. -/
def findExistingDM (db : DB) (uid otherId : Nat) : Option Nat :=
  ((visibleChatMembers db uid).filter (fun m => decide (m.user_id = uid))).findSome?
    (fun m => if dmMatch db uid otherId m.chat_id then some m.chat_id else none)

/-- The chats SELECT policy applied to the row handed back by
.insert(...).select().single() on chats: the RETURNING row must be visible
to the inserting principal, i.e. a membership row must already exist in the
pre-statement state.  When the check fails the statement errors and the
insert is rolled back with nothing stored. -/
def chatInsertReturningOk (db : DB) (c : Chat) (uid : Nat) : Bool :=
  isMember db c.id uid

/-- The chats row createDM inserts: { type: dm, created_by: uid } with the
generated key and server timestamp. -/
def dmChatRow (db : DB) (uid : Nat) : Chat :=
  { id := db.nextChatId, type := ChatType.dm, name := none, avatar_url := none,
    created_by := some uid, created_at := db.now }

/-- The two chat_members rows createDM inserts in one statement. -/
def dmMemberRows (db : DB) (uid otherId : Nat) : List ChatMember :=
  [⟨db.nextChatId, uid⟩, ⟨db.nextChatId, otherId⟩]

/-- The store after createDM committed both its inserts. -/
def dmInsertedDB (db : DB) (uid otherId : Nat) : DB :=
  { db with chats := db.chats ++ [dmChatRow db uid],
            chat_members := db.chat_members ++ dmMemberRows db uid otherId,
            nextChatId := db.nextChatId + 1, now := db.now + 1 }

/-- The store after createDM committed the chat but the members insert
failed: the orphaned-conversation state. -/
def dmOrphanDB (db : DB) (uid : Nat) : DB :=
  { db with chats := db.chats ++ [dmChatRow db uid],
            nextChatId := db.nextChatId + 1, now := db.now + 1 }

/-- createDM (NewChat.tsx): silent return without a session; scan for an
existing dm with exactly the other user; otherwise insert a chats row
{ type: dm, created_by: uid } via .insert().select().single() — gated by
the RETURNING SELECT-policy check — and then the two chat_members rows in
one statement, each row gated by the chat_members INSERT policies against
the state left by the committed chat insert.  A failing members insert
leaves the chat row committed. -/
def createDM (db : DB) (auth : Option Nat) (otherId : Nat) : DMResult × DB :=
  match auth with
  | none => (.noSession, db)
  | some uid =>
    match findExistingDM db uid otherId with
    | some cid => (.found cid, db)
    | none =>
      if chatInsertReturningOk db (dmChatRow db uid) uid then
        if insertMembersOk (dmOrphanDB db uid) uid (dmMemberRows db uid otherId) then
          (.created db.nextChatId, dmInsertedDB db uid otherId)
        else
          (.memberInsertFailed db.nextChatId, dmOrphanDB db uid)
      else
        (.chatInsertFailed, db)

/-- Outcome of createGroup.  noMembersSelected is the leading guard that
raises the destructive "Please select at least one user" toast before the
session is even read; chatInsertFailed is the thrown chats-insert error
(statement aborted at the RETURNING SELECT-policy check, nothing stored). -/
inductive GroupResult
  | noMembersSelected
  | noSession
  | created (chatId : Nat)
  | chatInsertFailed
  | memberInsertFailed (chatId : Nat)
deriving DecidableEq, Repr

/-- Whether the createGroup exit path raises the destructive toast. -/
def GroupResult.isErrorToast : GroupResult → Bool
  | .noMembersSelected => true
  | .chatInsertFailed => true
  | .memberInsertFailed _ => true
  | _ => false

/-- The name createGroup stores: groupName || "New Group", where the
JavaScript || replaces the empty string by the default. -/
def storedGroupName (groupName : String) : String :=
  if groupName = "" then "New Group" else groupName

/-- The chats row createGroup inserts. -/
def groupChatRow (db : DB) (uid : Nat) (groupName : String) : Chat :=
  { id := db.nextChatId, type := ChatType.group, name := some (storedGroupName groupName),
    avatar_url := none, created_by := some uid, created_at := db.now }

/-- The chat_members rows createGroup inserts in one statement: the creator
followed by every selected user. -/
def groupMemberRows (db : DB) (uid : Nat) (memberIds : List Nat) : List ChatMember :=
  ⟨db.nextChatId, uid⟩ :: memberIds.map (fun u => (⟨db.nextChatId, u⟩ : ChatMember))

/-- The store after createGroup committed the chats row only. -/
def groupOrphanDB (db : DB) (uid : Nat) (groupName : String) : DB :=
  { db with chats := db.chats ++ [groupChatRow db uid groupName],
            nextChatId := db.nextChatId + 1, now := db.now + 1 }

/-- The store after createGroup committed both its inserts. -/
def groupInsertedDB (db : DB) (uid : Nat) (memberIds : List Nat)
    (groupName : String) : DB :=
  { groupOrphanDB db uid groupName with
      chat_members := db.chat_members ++ groupMemberRows db uid memberIds }

/-- createGroup (NewChat.tsx): guard on an empty selection (with an error
toast), silent return without a session, then insert a chats row
{ type: group, name: groupName || "New Group", created_by: uid } via
.insert().select().single() — gated by the RETURNING SELECT-policy check —
and one chat_members row for the creator plus each selected user, gated by
the chat_members INSERT policies. -/
def createGroup (db : DB) (auth : Option Nat) (memberIds : List Nat)
    (groupName : String) : GroupResult × DB :=
  if memberIds.isEmpty then (.noMembersSelected, db)
  else
    match auth with
    | none => (.noSession, db)
    | some uid =>
      if chatInsertReturningOk db (groupChatRow db uid groupName) uid then
        if insertMembersOk (groupOrphanDB db uid groupName) uid
            (groupMemberRows db uid memberIds) then
          (.created db.nextChatId, groupInsertedDB db uid memberIds groupName)
        else
          (.memberInsertFailed db.nextChatId, groupOrphanDB db uid groupName)
      else
        (.chatInsertFailed, db)

/-- The empty store. -/
def db0 : DB := { profiles := [], chats := [], chat_members := [], messages := [],
                  nextChatId := 0, nextMsgId := 0, now := 0 }

/-- A store with one dm chat (id 1) between principals 0 and 5 holding one
message (id 10) sent by principal 5, whose profile is absent. -/
def dbU : DB :=
  { profiles := [],
    chats := [{ id := 1, type := ChatType.dm, name := none, avatar_url := none,
                created_by := some 0, created_at := 0 }],
    chat_members := [⟨1, 0⟩, ⟨1, 5⟩],
    messages := [{ id := 10, chat_id := 1, sender_id := 5, content := "hi", created_at := 0 }],
    nextChatId := 2, nextMsgId := 11, now := 1 }

/-- The message of dbU, as sent. -/
def msgU : Message := { id := 10, chat_id := 1, sender_id := 5, content := "hi", created_at := 0 }

/-! ### Helper lemmas -/

theorem wfb_member_lt (db : DB) (hwf : db.wfb = true) :
    ∀ m ∈ db.chat_members, m.chat_id < db.nextChatId := by
  have h := (Bool.and_eq_true _ _).mp hwf
  intro m hm
  have := List.all_eq_true.mp h.2 m hm
  exact of_decide_eq_true this

theorem isEmpty_false_of_ne_nil {ms : List Nat} (hms : ms ≠ []) : ms.isEmpty = false := by
  cases ms with
  | nil => exact absurd rfl hms
  | cons a l => rfl

theorem isMember_fresh_false (db : DB) (uid : Nat) (hwf : db.wfb = true) :
    isMember db db.nextChatId uid = false := by
  unfold isMember
  rw [List.any_eq_false]
  intro m hm
  have := wfb_member_lt db hwf m hm
  simp only [decide_eq_true_eq]
  rintro ⟨h1, _⟩
  omega

theorem otherMemberIds_nil (db : DB) (chatId uid : Nat) :
    otherMemberIds db chatId uid = [] := by
  unfold otherMemberIds
  have h : (visibleChatMembers db uid).filter
      (fun r => decide (r.chat_id = chatId ∧ r.user_id ≠ uid)) = [] := by
    rw [List.filter_eq_nil_iff]
    intro r hr
    have hu : r.user_id = uid := of_decide_eq_true (List.mem_filter.mp hr).2
    simp only [decide_eq_true_eq]
    rintro ⟨_, hne⟩
    exact hne hu
  rw [h]
  rfl

theorem dmMatch_false (db : DB) (uid otherId chatId : Nat) :
    dmMatch db uid otherId chatId = false := by
  unfold dmMatch
  cases h : (visibleChats db uid).find? (fun c => decide (c.id = chatId)) with
  | none => rfl
  | some c => simp [otherMemberIds_nil]

theorem findExistingDM_none (db : DB) (uid otherId : Nat) :
    findExistingDM db uid otherId = none := by
  unfold findExistingDM
  rw [List.findSome?_eq_none_iff]
  intro x hx
  rw [dmMatch_false]
  rfl

theorem createDM_always_chatInsertFailed (db : DB) (uid otherId : Nat)
    (hwf : db.wfb = true) :
    createDM db (some uid) otherId = (DMResult.chatInsertFailed, db) := by
  have h1 := findExistingDM_none db uid otherId
  have h2 : chatInsertReturningOk db (dmChatRow db uid) uid = false :=
    isMember_fresh_false db uid hwf
  simp [createDM, h1, h2]

theorem createGroup_always_chatInsertFailed (db : DB) (uid : Nat) (ms : List Nat)
    (gn : String) (hms : ms ≠ []) (hwf : db.wfb = true) :
    createGroup db (some uid) ms gn = (GroupResult.chatInsertFailed, db) := by
  have h2 : chatInsertReturningOk db (groupChatRow db uid gn) uid = false :=
    isMember_fresh_false db uid hwf
  simp [createGroup, isEmpty_false_of_ne_nil hms, h2]

theorem dmMemberInsert_fails (db : DB) (A B : Nat) (hwf : db.wfb = true) :
    insertMembersOk (dmOrphanDB db A) A (dmMemberRows db A B) = false := by
  by_cases hAB : B = A
  · subst hAB
    have hd : ¬ (((dmMemberRows db B B).map memberKey).Nodup ∧
        ∀ r ∈ dmMemberRows db B B,
          memberKey r ∉ (dmOrphanDB db B).chat_members.map memberKey) := by
      rintro ⟨hn, _⟩
      simp [dmMemberRows, memberKey] at hn
    unfold insertMembersOk
    rw [decide_eq_false_iff_not.mpr hd, Bool.and_false]
  · have hpol : memberInsertPolicyOk (dmOrphanDB db A) A ⟨db.nextChatId, B⟩ = false := by
      unfold memberInsertPolicyOk
      have h1 : decide ((⟨db.nextChatId, B⟩ : ChatMember).user_id = A) = false :=
        decide_eq_false_iff_not.mpr hAB
      have h2 : (visibleChats (dmOrphanDB db A) A).any
          (fun c => decide (c.id = (⟨db.nextChatId, B⟩ : ChatMember).chat_id ∧
            c.created_by = some A)) = false := by
        rw [List.any_eq_false]
        intro c hc
        have hcv : isMember (dmOrphanDB db A) c.id A = true := (List.mem_filter.mp hc).2
        simp only [decide_eq_true_eq]
        rintro ⟨hid, _⟩
        rw [hid] at hcv
        have heq : isMember (dmOrphanDB db A) db.nextChatId A =
            isMember db db.nextChatId A := rfl
        rw [heq, isMember_fresh_false db A hwf] at hcv
        exact Bool.false_ne_true hcv
      rw [h1, h2]
      rfl
    have hall : (dmMemberRows db A B).all
        (memberInsertPolicyOk (dmOrphanDB db A) A) = false := by
      rw [List.all_eq_false]
      refine ⟨⟨db.nextChatId, B⟩,
        List.mem_cons_of_mem _ (List.mem_cons_self _ _), ?_⟩
      rw [hpol]
      exact Bool.false_ne_true
    unfold insertMembersOk
    rw [hall, Bool.false_and]

/-! ### Claims -/

/-- C1: history of a conversation invoked by a principal returns messages
only under membership: when the caller is not a member, the RLS policy
filters every row of that chat away and the result is empty, not an error. -/
theorem history_requires_membership (db : DB) (uid chatId : Nat)
    (h : isMember db chatId uid = false) : history db uid chatId = [] := by
  unfold history
  have hnil : (visibleMessages db uid).filter (fun m => decide (m.chat_id = chatId)) = [] := by
    rw [List.filter_eq_nil_iff]
    intro m hm
    simp only [decide_eq_true_eq]
    intro hc
    have hv := (List.mem_filter.mp hm).2
    rw [hc, h] at hv
    exact Bool.false_ne_true hv
  rw [hnil]
  rfl

/-- C1 witness: principal 7 holds no membership in chat 1 of dbU, and its
history of that chat is empty. -/
theorem history_requires_membership_witness : history dbU 7 1 = [] :=
  history_requires_membership dbU 7 1 (by decide)

/-- C2: the claim fails on the code: under the chat_members SELECT policy
the dedup probe (select user_id where chat_id = ... and user_id <> self)
returns no rows, so the existence scan never finds a dm, and the chats
.insert().select().single() aborts at its RETURNING SELECT-policy check,
so no dm is ever created either — both sequential createDM calls error
with the store unchanged and neither returns a conversation id. -/
theorem createDM_never_returns_id (db : DB) (A B : Nat) (hwf : db.wfb = true) :
    createDM db (some A) B = (DMResult.chatInsertFailed, db) ∧
    createDM (createDM db (some A) B).2 (some A) B = (DMResult.chatInsertFailed, db) ∧
    ((createDM db (some A) B).1).chatId = none := by
  have h1 := createDM_always_chatInsertFailed db A B hwf
  refine ⟨h1, ?_, ?_⟩
  · simp [h1]
  · simp [h1, DMResult.chatId]

/-- C2 witness: from the empty store, both sequential createDM calls for
the pair 0 and 1 fail at the chats insert and return no id. -/
theorem createDM_never_returns_id_witness :
    createDM db0 (some 0) 1 = (DMResult.chatInsertFailed, db0) ∧
    createDM (createDM db0 (some 0) 1).2 (some 0) 1 = (DMResult.chatInsertFailed, db0) ∧
    ((createDM db0 (some 0) 1).1).chatId = none :=
  createDM_never_returns_id db0 0 1 (by decide)

/-- C4: append with content whose trimmed form is empty is stopped by the
pre-write guard of sendMessage — the InvalidArgument rejection of the spec:
the operation does not send and the store (in particular the message log)
is returned unchanged. -/
theorem sendMessage_empty_content_rejected (db : DB) (auth : Option Nat)
    (chatId : Nat) (content : String) (sending : Bool) (h : jsTrim content = "") :
    sendMessage db auth chatId content sending = (SendResult.rejected, db) := by
  unfold sendMessage
  rw [if_pos (Or.inl h)]

/-- C4 witness: sending whitespace-only content in dbU is rejected with the
store unchanged. -/
theorem sendMessage_empty_content_rejected_witness :
    sendMessage dbU (some 0) 1 "   " false = (SendResult.rejected, dbU) :=
  sendMessage_empty_content_rejected dbU (some 0) 1 "   " false (by decide)

/-- C5: history is non-decreasing in created_at: the ORDER BY created_at
ascending clause of loadMessages sorts the returned sequence. -/
theorem history_sorted_by_created_at (db : DB) (uid chatId : Nat) :
    List.Pairwise (fun a b : MessageView => a.created_at ≤ b.created_at)
      (history db uid chatId) := by
  unfold history
  have hs : List.Sorted msgLE (sortByTime
      ((visibleMessages db uid).filter (fun m => decide (m.chat_id = chatId)))) :=
    List.sorted_insertionSort msgLE _
  exact List.Pairwise.map (enrich db) (fun a b hab => hab) hs

/-- C3: the claim asserts the merged live view never repeats a message id,
but the realtime INSERT handler appends its payload unconditionally: an
event for the message already delivered by the history load duplicates its
id, as here where message id 10 of dbU appears twice after one such event. -/
theorem liveMerge_duplicate_append :
    ((liveMerge dbU (history dbU 0 1) [msgU]).map (fun v => v.id)).count 10 = 2 := by
  decide

/-- C6: the claim fails on the code: createDM never installs Membership
rows for the pair selfId, otherId — the chats insert aborts at the
RETURNING SELECT-policy check before any members insert, leaving chats and
chat_members untouched, and even the two-row members insert itself would
fail the chat_members INSERT policies (the other principal row passes
neither the own-row check nor the creator check, whose RLS-filtered chats
subquery cannot see the not-yet-membered chat). -/
theorem createDM_installs_no_membership (db : DB) (A B : Nat) (hwf : db.wfb = true) :
    (createDM db (some A) B).2.chat_members = db.chat_members ∧
    (createDM db (some A) B).2.chats = db.chats ∧
    (∀ cid, (createDM db (some A) B).1 ≠ DMResult.created cid) ∧
    insertMembersOk (dmOrphanDB db A) A (dmMemberRows db A B) = false := by
  have h1 := createDM_always_chatInsertFailed db A B hwf
  rw [h1]
  exact ⟨rfl, rfl, fun cid h => by simp at h, dmMemberInsert_fails db A B hwf⟩

/-- C6 witness: from the empty store, createDM for the pair 0 and 1
installs no membership and creates no conversation. -/
theorem createDM_installs_no_membership_witness :
    (createDM db0 (some 0) 1).2.chat_members = db0.chat_members ∧
    (createDM db0 (some 0) 1).2.chats = db0.chats ∧
    (∀ cid, (createDM db0 (some 0) 1).1 ≠ DMResult.created cid) ∧
    insertMembersOk (dmOrphanDB db0 0) 0 (dmMemberRows db0 0 1) = false :=
  createDM_installs_no_membership db0 0 1 (by decide)

/-- C7: an unresolvable sender profile does not abort nor shrink a history
fetch: a member-visible message whose sender has no profiles row is still
returned, with the sender join null, and the number of returned rows equals
the number of member-visible rows of the chat. -/
theorem history_unresolved_sender_isolated (db : DB) (uid chatId : Nat) (m : Message)
    (hm : m ∈ db.messages) (hc : m.chat_id = chatId)
    (hmem : isMember db chatId uid = true)
    (hprof : db.profiles.find? (fun p => decide (p.id = m.sender_id)) = none) :
    (∃ v ∈ history db uid chatId, v.id = m.id ∧ v.content = m.content ∧
      v.sender_id = m.sender_id ∧ v.sender = none) ∧
    (history db uid chatId).length =
      ((visibleMessages db uid).filter (fun x => decide (x.chat_id = chatId))).length := by
  have hmL : m ∈ (visibleMessages db uid).filter (fun x => decide (x.chat_id = chatId)) := by
    rw [List.mem_filter]
    refine ⟨?_, by simp [hc]⟩
    rw [visibleMessages, List.mem_filter]
    refine ⟨hm, ?_⟩
    rw [hc]
    exact hmem
  have hperm := List.perm_insertionSort msgLE
    ((visibleMessages db uid).filter (fun x => decide (x.chat_id = chatId)))
  have hms : m ∈ sortByTime
      ((visibleMessages db uid).filter (fun x => decide (x.chat_id = chatId))) := by
    unfold sortByTime
    exact hperm.mem_iff.mpr hmL
  constructor
  · refine ⟨enrich db m, ?_, rfl, rfl, rfl, ?_⟩
    · unfold history
      exact List.mem_map_of_mem (enrich db) hms
    · show lookupSender db m.sender_id = none
      unfold lookupSender
      rw [hprof]
      rfl
  · unfold history
    rw [List.length_map]
    unfold sortByTime
    exact hperm.length_eq

/-- C7 witness: in dbU, the message sent by principal 5 has no profiles row
yet history for member 0 returns it with a null sender and full length. -/
theorem history_unresolved_sender_isolated_witness :
    (∃ v ∈ history dbU 0 1, v.id = msgU.id ∧ v.content = msgU.content ∧
      v.sender_id = msgU.sender_id ∧ v.sender = none) ∧
    (history dbU 0 1).length =
      ((visibleMessages dbU 0).filter (fun x => decide (x.chat_id = 1))).length :=
  history_unresolved_sender_isolated dbU 0 1 msgU (by decide) (by decide)
    (by decide) (by rfl)

/-- C8 counterexample: the claim says a Group conversation with a present
name displays that name and a Direct conversation with a resolved
counterpart displays that counterpart's display_name; the JavaScript ||
breaks both at the empty string, where the code substitutes the
placeholder instead: the claim is false at name some-empty and at a
resolved counterpart with empty display_name. -/
theorem getChatName_spec_refuted :
    ¬ (∀ chat : ChatView,
        (∀ n, chat.type = ChatType.group → chat.name = some n → getChatName chat = n) ∧
        (∀ u, chat.type = ChatType.dm → chat.otherUser = some u →
          getChatName chat = u.display_name)) := by
  intro h
  have h1 := (h ⟨ChatType.group, some "", none⟩).1 "" rfl rfl
  exact absurd h1 (by decide)

/-- C8 (amended): getChatName shows, for a group chat, the stored name when
present and non-empty and the placeholder "Unnamed Group" when the name is
absent or empty; for a dm, the counterpart display_name when the counterpart
resolves with a non-empty display_name and the sentinel "Unknown User" when
the counterpart is unresolved or its display_name is empty. -/
theorem getChatName_cases (nm : Option String) (ou : Option SenderInfo)
    (n : String) (u : SenderInfo) :
    (nm = some n → n ≠ "" → getChatName ⟨ChatType.group, nm, ou⟩ = n) ∧
    ((nm = none ∨ nm = some "") → getChatName ⟨ChatType.group, nm, ou⟩ = "Unnamed Group") ∧
    (ou = some u → u.display_name ≠ "" → getChatName ⟨ChatType.dm, nm, ou⟩ = u.display_name) ∧
    ((ou = none ∨ (ou = some u ∧ u.display_name = "")) →
      getChatName ⟨ChatType.dm, nm, ou⟩ = "Unknown User") := by
  refine ⟨?_, ?_, ?_, ?_⟩
  · intro h1 h2
    subst h1
    simp [getChatName, h2]
  · intro h1
    rcases h1 with h | h <;> subst h <;> simp [getChatName]
  · intro h1 h2
    subst h1
    simp [getChatName, h2]
  · intro h1
    rcases h1 with h | ⟨h, hd⟩
    · subst h
      simp [getChatName]
    · subst h
      simp [getChatName, hd]

/-- C8 witness: a group chat named Team displays Team. -/
theorem getChatName_cases_witness :
    getChatName ⟨ChatType.group, some "Team", none⟩ = "Team" :=
  (getChatName_cases (some "Team") none "Team" ⟨"u", "x", none⟩).1 rfl (by decide)

/-- C9 counterexample: the claim says all three write operations are silent
no-ops without a session, but createGroup validates the selection before
reading the session: with an empty selection it surfaces the destructive
"Please select at least one user" toast (while still writing nothing). -/
theorem createGroup_empty_selection_error :
    ((createGroup db0 none [] "").1).isErrorToast = true ∧
      (createGroup db0 none [] "").2 = db0 :=
  ⟨rfl, rfl⟩

/-- C9 (amended): without an authenticated principal, sendMessage and
createDM return with the store unchanged and no error toast, and so does
createGroup provided the member selection is non-empty (its empty-selection
validation toast fires before the session check). -/
theorem unauthenticated_ops_silent (db : DB) (chatId otherId : Nat)
    (content : String) (sending : Bool) (ms : List Nat) (gn : String)
    (hms : ms ≠ []) :
    ((sendMessage db none chatId content sending).2 = db ∧
      ((sendMessage db none chatId content sending).1).isErrorToast = false) ∧
    (createDM db none otherId = (DMResult.noSession, db) ∧
      DMResult.isErrorToast DMResult.noSession = false) ∧
    (createGroup db none ms gn = (GroupResult.noSession, db) ∧
      GroupResult.isErrorToast GroupResult.noSession = false) := by
  have hsend : sendMessage db none chatId content sending = (SendResult.rejected, db) ∨
      sendMessage db none chatId content sending = (SendResult.noSession, db) := by
    unfold sendMessage
    split
    · exact Or.inl rfl
    · exact Or.inr rfl
  refine ⟨?_, ⟨rfl, rfl⟩, ?_, rfl⟩
  · rcases hsend with h | h <;> rw [h] <;> exact ⟨rfl, rfl⟩
  · simp only [createGroup]
    rw [isEmpty_false_of_ne_nil hms, if_neg Bool.false_ne_true]

/-- C9 witness: from the empty store with no session, all three operations
leave the store unchanged and raise no error toast. -/
theorem unauthenticated_ops_silent_witness :
    ((sendMessage db0 none 0 "hello" false).2 = db0 ∧
      ((sendMessage db0 none 0 "hello" false).1).isErrorToast = false) ∧
    (createDM db0 none 1 = (DMResult.noSession, db0) ∧
      DMResult.isErrorToast DMResult.noSession = false) ∧
    (createGroup db0 none [1] "g" = (GroupResult.noSession, db0) ∧
      GroupResult.isErrorToast GroupResult.noSession = false) :=
  unauthenticated_ops_silent db0 0 1 "hello" false [1] "g" (by decide)

/-- C10: the claim fails on the code: createGroup persists nothing — the
chats .insert().select().single() aborts at the RETURNING SELECT-policy
check because the creator is not yet a member of the new chat — so although
the request payload defaults the name (groupName || "New Group", modelled
by storedGroupName), no group row, and hence no name, is ever stored at
creation. -/
theorem createGroup_stores_nothing (db : DB) (uid : Nat) (ms : List Nat)
    (gn : String) (hwf : db.wfb = true) :
    (createGroup db (some uid) ms gn).2 = db ∧
    ∀ cid, (createGroup db (some uid) ms gn).1 ≠ GroupResult.created cid := by
  by_cases hms : ms = []
  · subst hms
    refine ⟨rfl, ?_⟩
    intro cid h
    simp [createGroup] at h
  · have h1 := createGroup_always_chatInsertFailed db uid ms gn hms hwf
    rw [h1]
    exact ⟨rfl, fun cid h => by simp at h⟩

/-- C10 witness: creating a group from the empty store with an empty name
and one selected member stores nothing and creates no conversation. -/
theorem createGroup_stores_nothing_witness :
    (createGroup db0 (some 0) [1] "").2 = db0 ∧
    ∀ cid, (createGroup db0 (some 0) [1] "").1 ≠ GroupResult.created cid :=
  createGroup_stores_nothing db0 0 [1] "" (by decide)

end NebulaChat
